import Mathlib

/-!
Shallow embedding of `src/DataLoader.ts` (NMIG data-transfer worker).

The TypeScript module is event-driven: a MySQL cursor emits rows, rows are
CSV-encoded and buffered, and at the high-water mark the buffer is piped
through a PostgreSQL `COPY FROM STDIN` stream.  We embed it as a sequential
interpreter: the external world (query outcomes, per-row CSV encoding
outcomes, per-batch copy outcomes, the recovery check) is an oracle `Env`,
and every observable effect (logging, ledger deletion, trigger toggling,
connection release, messages to the master process, batch attempts) is
recorded in order in an effect trace carried by the state `St`.

Modelling notes, tied to the source:
* `parse(row, …)` (json2csv) is external; a source row is represented
  directly by its encoding outcome `Except String String`
  (`.error e` = the parser threw `e`, `.ok csv` = it produced `csv`).
* `mysqlClient.pause()` / `.resume()` are modelled as a `paused` flag;
  while paused, no further `result` events are delivered.
* In `getCopyStream`'s `finish` handler, the statement `dataBuffer = [];`
  reassigns only `getCopyStream`'s own parameter binding; the
  `dataBuffer` array local to `populateTableWorker` — the one the
  `result` handler pushes onto — is NOT cleared.  The embedding is
  faithful to this: a successful drain leaves `St.dataBuffer` unchanged.
* `COPY` is transactional per channel: a successful batch appends the
  whole streamed buffer to `committed`; a failed batch appends nothing.
* JavaScript truthiness: `if (originalSessionReplicationRole)` is false
  for both `null` and the empty string.
-/

namespace DataLoader

/-- Observable effects of the worker, in chronological order.
`errorLogged` = `generateError`, `rejectedLogged t` = `log` into the
table-scoped `t.log` file, `ledgerDeleted id` = the data-pool `DELETE`
succeeded, `enabled r` = `enableTriggers` was invoked with role `r`,
`released` = `DBAccess.releaseDbClient`, `msg t n` =
`processSend(new MessageToMaster(t, n))`, `srcQuery` = the MySQL
retrieval query was issued, `batch k n ok` = the `k`-th bulk-copy
attempt streamed a buffer of `n` records with outcome `ok`,
`mysqlDestroy` = `mysqlClient.destroy()` on end-of-cursor. -/
inductive Event where
  | errorLogged : Event
  | rejectedLogged : String → Event
  | ledgerDeleted : Nat → Event
  | enabled : String → Event
  | released : Event
  | msg : String → Nat → Event
  | srcQuery : Event
  | batch : Nat → Nat → Bool → Event
  | mysqlDestroy : Event
deriving DecidableEq, Repr

/-- Oracle for the external world: outcomes of the `SHOW` query, the
`SET … = replica` query, the `k`-th ledger `DELETE`, the `k`-th restore
`SET`, the `k`-th bulk-copy channel, and the `dataTransferred`
consistency check. -/
structure Env where
  showOk : Bool
  setReplicaOk : Bool
  deleteOk : Nat → Bool
  enableOk : Nat → Bool
  copyOk : Nat → Bool
  dataTransferredRes : Bool

/-- Worker state: the PostgreSQL session's `session_replication_role`,
the worker-local `dataBuffer`, the rows durably committed in the target
table, the cursor's paused flag, call counters used to index the
oracles, and the effect trace. -/
structure St where
  sessionMode : String
  dataBuffer : List String
  committed : List String
  paused : Bool
  deleteAttempts : Nat
  enableAttempts : Nat
  batchAttempts : Nat
  trace : List Event
deriving DecidableEq, Repr

/-- Per-chunk context threaded through the handlers: target table name,
resolved original (source) table name, data-pool id, the configured
`_streamsHighWaterMark`, and the captured session replication role
(`none` when `shouldMigrateOnlyData()` was false). -/
structure Ctx where
  tableName : String
  origTableName : String
  dataPoolId : Nat
  watermark : Nat
  origRole : Option String
deriving DecidableEq, Repr

/-- `enableTriggers`: runs `SET session_replication_role = role`; on
failure the error is logged and the session mode is left unchanged. -/
def enableTriggers (env : Env) (role : String) (s : St) : St :=
  let s1 : St := { s with enableAttempts := s.enableAttempts + 1,
                          trace := s.trace ++ [Event.enabled role] }
  if env.enableOk s.enableAttempts then
    { s1 with sessionMode := role }
  else
    { s1 with trace := s1.trace ++ [Event.errorLogged] }

/-- `disableTriggers`: `SHOW session_replication_role`, then
`SET session_replication_role = replica`.  If `SHOW` throws, the error
is logged and the default `origin` is returned; if `SHOW` succeeds but
`SET` throws, the error is logged and the captured role is returned. -/
def disableTriggers (env : Env) (s : St) : String × St :=
  if env.showOk then
    let captured : String := s.sessionMode
    if env.setReplicaOk then
      (captured, { s with sessionMode := "replica" })
    else
      (captured, { s with trace := s.trace ++ [Event.errorLogged] })
  else
    ("origin", { s with trace := s.trace ++ [Event.errorLogged] })

/-- `deleteChunk`: `try` the ledger `DELETE`; if it succeeds and a
(truthy, i.e. non-null and non-empty) original role was given, restore
it via `enableTriggers`; on `DELETE` failure log the error (skipping the
restore); `finally` release the PostgreSQL client. -/
def deleteChunk (env : Env) (dataPoolId : Nat) (origRole : Option String) (s : St) : St :=
  let s1 : St := { s with deleteAttempts := s.deleteAttempts + 1 }
  let s2 : St :=
    if env.deleteOk s.deleteAttempts then
      let s3 : St := { s1 with trace := s1.trace ++ [Event.ledgerDeleted dataPoolId] }
      match origRole with
      | some role => if role = "" then s3 else enableTriggers env role s3
      | none => s3
    else
      { s1 with trace := s1.trace ++ [Event.errorLogged] }
  { s2 with trace := s2.trace ++ [Event.released] }

/-- `processDataError`: `generateError`, a table-scoped rejected-data
log entry, `deleteChunk` (ledger delete + restore + release), then a
zero-row `MessageToMaster`. -/
def processDataError (env : Env) (logTable : String) (dataPoolId : Nat)
    (origRole : Option String) (s : St) : St :=
  let s1 : St := { s with trace :=
    s.trace ++ [Event.errorLogged, Event.rejectedLogged logTable] }
  let s2 : St := deleteChunk env dataPoolId origRole s1
  { s2 with trace := s2.trace ++ [Event.msg logTable 0] }

/-- `getCopyStream` together with the `chunkBuffered` handler that feeds
it: one bulk-copy channel is opened and the current buffer is streamed
through it while the cursor is paused.  On `finish` the streamed records
are committed (per-channel transactionality), `dataBuffer = []`
rebinds only the handler's own parameter (the shared buffer stays), and
`chunkLoaded` resumes the cursor.  On `error`, `processDataError` runs
and — the cursor never being resumed — no further rows arrive. -/
def getCopyStream (env : Env) (ctx : Ctx) (s : St) : St :=
  let k : Nat := s.batchAttempts
  let s1 : St := { s with batchAttempts := k + 1, paused := true,
                          trace := s.trace ++ [Event.batch k s.dataBuffer.length (env.copyOk k)] }
  if env.copyOk k then
    { s1 with committed := s1.committed ++ s1.dataBuffer, paused := false }
  else
    processDataError env ctx.tableName ctx.dataPoolId ctx.origRole s1

/-- The `result` handler: a row whose CSV encoding threw goes through
`processDataError` (logged under the original table name); an encoded
row is pushed onto the buffer, and when the buffer's length reaches the
high-water mark, `chunkBuffered` fires (the batch is drained) and the
cursor is paused. -/
def onResult (env : Env) (ctx : Ctx) (r : Except String String) (s : St) : St :=
  match r with
  | Except.error _ => processDataError env ctx.origTableName ctx.dataPoolId ctx.origRole s
  | Except.ok csv =>
      let s1 : St := { s with dataBuffer := s.dataBuffer ++ [csv] }
      if ctx.watermark ≤ s1.dataBuffer.length then getCopyStream env ctx s1 else s1

/-- Delivery loop of the MySQL cursor: rows are delivered in order; a
paused cursor delivers nothing further (it is only ever resumed by a
successful drain inside `onResult`). -/
def runRows (env : Env) (ctx : Ctx) : List (Except String String) → St → St
  | [], s => s
  | r :: rest, s =>
      if s.paused then s else runRows env ctx rest (onResult env ctx r s)

/-- The retrieval query: issue it, deliver its rows, then — if the
cursor is not stuck paused — either the `error` handler
(`processDataError` with the retrieval statement) or the `end` handler
(`mysqlClient.destroy()`) fires. -/
def runQuery (env : Env) (ctx : Ctx) (rows : List (Except String String))
    (retErr : Bool) (s : St) : St :=
  let s1 : St := { s with trace := s.trace ++ [Event.srcQuery] }
  let s2 : St := runRows env ctx rows s1
  if s2.paused then s2
  else if retErr then processDataError env ctx.tableName ctx.dataPoolId ctx.origRole s2
  else { s2 with trace := s2.trace ++ [Event.mysqlDestroy] }

/-- `populateTableWorker`: acquire the clients, capture-and-disable the
session replication role when migrating data only, then run the
retrieval query with its handlers. -/
def populateTableWorker (env : Env) (migrateOnlyData : Bool)
    (tableName origTableName : String) (watermark dataPoolId : Nat)
    (rows : List (Except String String)) (retErr : Bool) (s : St) : St :=
  let p : Option String × St :=
    if migrateOnlyData then
      let r : String × St := disableTriggers env s
      (some r.1, r.2)
    else (none, s)
  runQuery env ⟨tableName, origTableName, dataPoolId, watermark, p.1⟩ rows retErr p.2

/-- The `process.on('message')` entry point: consult `dataTransferred`;
on the normal path run `populateTableWorker`; on the recovery path
acquire a client and `deleteChunk` (with a null original role). -/
def loadData (env : Env) (migrateOnlyData : Bool)
    (tableName origTableName : String) (watermark dataPoolId : Nat)
    (rows : List (Except String String)) (retErr : Bool) (s : St) : St :=
  if env.dataTransferredRes then
    deleteChunk env dataPoolId none s
  else
    populateTableWorker env migrateOnlyData tableName origTableName
      watermark dataPoolId rows retErr s

/-- Initial worker state: session mode `m`, target table contents `c`,
empty buffer, cursor flowing, no calls made yet. -/
def initSt (m : String) (c : List String) : St :=
  { sessionMode := m, dataBuffer := [], committed := c, paused := false,
    deleteAttempts := 0, enableAttempts := 0, batchAttempts := 0, trace := [] }

/-- Discriminator used by the trace counters. -/
def Event.isReleased : Event → Bool
  | Event.released => true
  | _ => false

/-- Discriminator used by the trace counters. -/
def Event.isEnabled : Event → Bool
  | Event.enabled _ => true
  | _ => false

/-- Discriminator used by the trace counters. -/
def Event.isMsg : Event → Bool
  | Event.msg _ _ => true
  | _ => false

/-- Discriminator used by the trace counters. -/
def Event.isLedgerDeleted : Event → Bool
  | Event.ledgerDeleted _ => true
  | _ => false

/-- Discriminator used by the trace counters. -/
def Event.isSrcQuery : Event → Bool
  | Event.srcQuery => true
  | _ => false

/-- Discriminator used by the trace counters. -/
def Event.isBatch : Event → Bool
  | Event.batch _ _ _ => true
  | _ => false

/-- Number of connection releases recorded in a trace. -/
def releasedCount (t : List Event) : Nat := (t.filter Event.isReleased).length

/-- Number of `enableTriggers` invocations recorded in a trace. -/
def enabledCount (t : List Event) : Nat := (t.filter Event.isEnabled).length

/-- Number of messages to the master recorded in a trace. -/
def msgCount (t : List Event) : Nat := (t.filter Event.isMsg).length

/-- Number of successful ledger deletions recorded in a trace. -/
def ledgerDelCount (t : List Event) : Nat := (t.filter Event.isLedgerDeleted).length

/-- Number of source retrieval queries recorded in a trace. -/
def srcQueryCount (t : List Event) : Nat := (t.filter Event.isSrcQuery).length

/-- Number of bulk-copy attempts recorded in a trace. -/
def batchCount (t : List Event) : Nat := (t.filter Event.isBatch).length

end DataLoader

namespace DataLoader

theorem releasedCount_append (a b : List Event) :
    releasedCount (a ++ b) = releasedCount a + releasedCount b := by
  simp [releasedCount, List.filter_append]

theorem enabledCount_append (a b : List Event) :
    enabledCount (a ++ b) = enabledCount a + enabledCount b := by
  simp [enabledCount, List.filter_append]

theorem msgCount_append (a b : List Event) :
    msgCount (a ++ b) = msgCount a + msgCount b := by
  simp [msgCount, List.filter_append]

theorem ledgerDelCount_append (a b : List Event) :
    ledgerDelCount (a ++ b) = ledgerDelCount a + ledgerDelCount b := by
  simp [ledgerDelCount, List.filter_append]

theorem srcQueryCount_append (a b : List Event) :
    srcQueryCount (a ++ b) = srcQueryCount a + srcQueryCount b := by
  simp [srcQueryCount, List.filter_append]

theorem batchCount_append (a b : List Event) :
    batchCount (a ++ b) = batchCount a + batchCount b := by
  simp [batchCount, List.filter_append]

/-- Effects of one `deleteChunk` call, over all oracle branches: the
buffer, committed rows, paused flag and batch counter are untouched,
the delete counter and the release count go up by exactly one, and no
message is sent. -/
theorem deleteChunk_effects (env : Env) (id : Nat) (ro : Option String) (s : St) :
    (deleteChunk env id ro s).committed = s.committed
    ∧ (deleteChunk env id ro s).paused = s.paused
    ∧ (deleteChunk env id ro s).dataBuffer = s.dataBuffer
    ∧ (deleteChunk env id ro s).batchAttempts = s.batchAttempts
    ∧ (deleteChunk env id ro s).deleteAttempts = s.deleteAttempts + 1
    ∧ releasedCount (deleteChunk env id ro s).trace = releasedCount s.trace + 1
    ∧ msgCount (deleteChunk env id ro s).trace = msgCount s.trace := by
  unfold deleteChunk enableTriggers
  rcases ro with _ | role
  · cases h1 : env.deleteOk s.deleteAttempts <;>
      simp [h1, releasedCount, msgCount, List.filter_append,
        Event.isReleased, Event.isMsg]
  · cases h1 : env.deleteOk s.deleteAttempts
    · simp [h1, releasedCount, msgCount, List.filter_append,
        Event.isReleased, Event.isMsg]
    · by_cases h2 : role = ""
      · simp [h1, h2, releasedCount, msgCount, List.filter_append,
          Event.isReleased, Event.isMsg]
      · cases h3 : env.enableOk s.enableAttempts <;>
          simp [h1, h2, h3, releasedCount, msgCount, List.filter_append,
            Event.isReleased, Event.isMsg]

/-- Effects of one failure cleanup (`processDataError`), over all oracle
branches: buffer, committed rows, paused flag and batch counter are
untouched; exactly one ledger-delete attempt, one release and one
zero-row message are added, the message being for `tbl`. -/
theorem processDataError_effects (env : Env) (tbl : String) (id : Nat)
    (ro : Option String) (s : St) :
    (processDataError env tbl id ro s).committed = s.committed
    ∧ (processDataError env tbl id ro s).paused = s.paused
    ∧ (processDataError env tbl id ro s).dataBuffer = s.dataBuffer
    ∧ (processDataError env tbl id ro s).batchAttempts = s.batchAttempts
    ∧ (processDataError env tbl id ro s).deleteAttempts = s.deleteAttempts + 1
    ∧ releasedCount (processDataError env tbl id ro s).trace = releasedCount s.trace + 1
    ∧ msgCount (processDataError env tbl id ro s).trace = msgCount s.trace + 1
    ∧ Event.msg tbl 0 ∈ (processDataError env tbl id ro s).trace := by
  unfold processDataError
  obtain ⟨h1, h2, h3, h4, h5, h6, h7⟩ :=
    deleteChunk_effects env id ro
      { s with trace := s.trace ++ [Event.errorLogged, Event.rejectedLogged tbl] }
  refine ⟨h1, h2, h3, h4, h5, ?_, ?_, ?_⟩
  · rw [releasedCount_append, h6]
    simp [releasedCount_append, releasedCount, Event.isReleased]
  · rw [msgCount_append, h7]
    simp [msgCount_append, msgCount, Event.isMsg]
  · simp

/-- A paused cursor delivers no further rows: `runRows` is the identity
on a paused state. -/
theorem runRows_paused (env : Env) (ctx : Ctx)
    (rows : List (Except String String)) (s : St) (hp : s.paused = true) :
    runRows env ctx rows s = s := by
  cases rows <;> simp [runRows, hp]

end DataLoader

namespace DataLoader

/-- Explicit shape of one failure cleanup when a non-empty role was
captured and both the ledger `DELETE` and the restoring `SET` succeed:
the trace gains, in order, the error log, the table-scoped rejected-data
entry, the ledger deletion, the single restore invocation, the release,
and the zero-row message — and the session mode is restored to `r`. -/
theorem processDataError_spec (env : Env) (tbl : String) (id : Nat) (r : String)
    (s : St) (hr : ¬ r = "") (hdel : env.deleteOk s.deleteAttempts = true)
    (hen : env.enableOk s.enableAttempts = true) :
    processDataError env tbl id (some r) s =
      { s with deleteAttempts := s.deleteAttempts + 1,
               enableAttempts := s.enableAttempts + 1,
               sessionMode := r,
               trace := s.trace ++ [Event.errorLogged, Event.rejectedLogged tbl,
                 Event.ledgerDeleted id, Event.enabled r, Event.released,
                 Event.msg tbl 0] } := by
  unfold processDataError deleteChunk enableTriggers
  simp [hdel, hen, hr]

/-- One `result` event for a successfully encoded row, with every
bulk-copy channel succeeding: the cursor ends up flowing, and no delete
attempt, message, ledger deletion or release is added. -/
theorem onResult_ok (env : Env) (ctx : Ctx) (c : String) (s : St)
    (hcopy : ∀ k, env.copyOk k = true) (hp : s.paused = false) :
    (onResult env ctx (Except.ok c) s).paused = false
    ∧ (onResult env ctx (Except.ok c) s).deleteAttempts = s.deleteAttempts
    ∧ msgCount (onResult env ctx (Except.ok c) s).trace = msgCount s.trace
    ∧ ledgerDelCount (onResult env ctx (Except.ok c) s).trace = ledgerDelCount s.trace
    ∧ releasedCount (onResult env ctx (Except.ok c) s).trace = releasedCount s.trace
    ∧ enabledCount (onResult env ctx (Except.ok c) s).trace = enabledCount s.trace := by
  unfold onResult getCopyStream
  by_cases hw : ctx.watermark ≤ s.dataBuffer.length + 1
  all_goals
    simp [hw, hcopy, hp, msgCount_append, ledgerDelCount_append,
      releasedCount_append, enabledCount_append, msgCount, ledgerDelCount,
      releasedCount, enabledCount, Event.isMsg, Event.isLedgerDeleted,
      Event.isReleased, Event.isEnabled]

/-- Delivering any sequence of successfully encoded rows with every
bulk-copy channel succeeding keeps the cursor flowing and adds no delete
attempt, message, ledger deletion or release. -/
theorem runRows_allOk (env : Env) (ctx : Ctx) (csvs : List String) (s : St)
    (hcopy : ∀ k, env.copyOk k = true) (hp : s.paused = false) :
    (runRows env ctx (csvs.map Except.ok) s).paused = false
    ∧ (runRows env ctx (csvs.map Except.ok) s).deleteAttempts = s.deleteAttempts
    ∧ msgCount (runRows env ctx (csvs.map Except.ok) s).trace = msgCount s.trace
    ∧ ledgerDelCount (runRows env ctx (csvs.map Except.ok) s).trace = ledgerDelCount s.trace
    ∧ releasedCount (runRows env ctx (csvs.map Except.ok) s).trace = releasedCount s.trace := by
  induction csvs generalizing s with
  | nil => simp [runRows, hp]
  | cons c cs ih =>
      obtain ⟨g1, g2, g3, g4, g5, _⟩ := onResult_ok env ctx c s hcopy hp
      obtain ⟨k1, k2, k3, k4, k5⟩ := ih (onResult env ctx (Except.ok c) s) g1
      simp only [List.map, runRows, hp, Bool.false_eq_true, if_false]
      exact ⟨k1, by omega, by omega, by omega, by omega⟩

end DataLoader

namespace DataLoader

/-- `disableTriggers` never sends a message, deletes a ledger entry,
releases the client, touches the buffer/paused flag or the counters; it
only possibly logs an error. -/
theorem disableTriggers_effects (env : Env) (s : St) :
    (disableTriggers env s).2.paused = s.paused
    ∧ (disableTriggers env s).2.deleteAttempts = s.deleteAttempts
    ∧ msgCount (disableTriggers env s).2.trace = msgCount s.trace
    ∧ ledgerDelCount (disableTriggers env s).2.trace = ledgerDelCount s.trace
    ∧ releasedCount (disableTriggers env s).2.trace = releasedCount s.trace := by
  unfold disableTriggers
  cases h1 : env.showOk <;> cases h2 : env.setReplicaOk <;>
    simp [h1, h2, msgCount_append, ledgerDelCount_append, releasedCount_append,
      msgCount, ledgerDelCount, releasedCount, Event.isMsg,
      Event.isLedgerDeleted, Event.isReleased]

/-- The whole normal path on an all-successful run (every row encodes,
every bulk-copy channel succeeds, the cursor ends without error): no
ledger-delete attempt or deletion, no message to the master, and no
connection release ever happens. -/
theorem loadData_allOk_quiet (env : Env) (migF : Bool) (tbl otbl : String)
    (wm id : Nat) (csvs : List String) (m : String) (c : List String)
    (hrec : env.dataTransferredRes = false) (hcopy : ∀ k, env.copyOk k = true) :
    (loadData env migF tbl otbl wm id (csvs.map Except.ok) false (initSt m c)).deleteAttempts = 0
    ∧ msgCount (loadData env migF tbl otbl wm id (csvs.map Except.ok) false (initSt m c)).trace = 0
    ∧ ledgerDelCount (loadData env migF tbl otbl wm id (csvs.map Except.ok) false (initSt m c)).trace = 0
    ∧ releasedCount (loadData env migF tbl otbl wm id (csvs.map Except.ok) false (initSt m c)).trace = 0 := by
  unfold loadData populateTableWorker runQuery
  simp only [hrec, Bool.false_eq_true, if_false]
  obtain ⟨d1, d2, d3, d4, d5⟩ := disableTriggers_effects env (initSt m c)
  cases migF
  case false =>
    obtain ⟨r1, r2, r3, r4, r5⟩ := runRows_allOk env
      ⟨tbl, otbl, id, wm, none⟩ csvs
      { initSt m c with trace := (initSt m c).trace ++ [Event.srcQuery] }
      hcopy rfl
    simp only [Bool.false_eq_true, if_false, r1]
    refine ⟨?_, ?_, ?_, ?_⟩ <;>
      simp_all [initSt, msgCount_append, ledgerDelCount_append,
        releasedCount_append, msgCount, ledgerDelCount, releasedCount,
        Event.isMsg, Event.isLedgerDeleted, Event.isReleased]
  case true =>
    obtain ⟨r1, r2, r3, r4, r5⟩ := runRows_allOk env
      ⟨tbl, otbl, id, wm, some (disableTriggers env (initSt m c)).1⟩ csvs
      { (disableTriggers env (initSt m c)).2 with
          trace := (disableTriggers env (initSt m c)).2.trace ++ [Event.srcQuery] }
      hcopy d1
    simp only [Bool.false_eq_true, if_false, r1]
    refine ⟨?_, ?_, ?_, ?_⟩ <;>
      simp_all [initSt, msgCount_append, ledgerDelCount_append,
        releasedCount_append, msgCount, ledgerDelCount, releasedCount,
        Event.isMsg, Event.isLedgerDeleted, Event.isReleased]

end DataLoader

namespace DataLoader

/-- All-success oracle: every query, bulk-copy channel and row encoding
succeeds and the consistency check reports fresh work. -/
def envAllOk : Env :=
  { showOk := true, setReplicaOk := true, deleteOk := fun _ => true,
    enableOk := fun _ => true, copyOk := fun _ => true, dataTransferredRes := false }

/-- Oracle for the recovery path: chunk already applied. -/
def envRecovery : Env := { envAllOk with dataTransferredRes := true }

/-- Oracle where `SET session_replication_role = replica` throws. -/
def envSetFail : Env := { envAllOk with setReplicaOk := false }

/-- Oracle where `SHOW session_replication_role` throws. -/
def envShowFail : Env := { envAllOk with showOk := false }

/-- Oracle where the restoring `SET` in `enableTriggers` throws. -/
def envEnableFail : Env := { envAllOk with enableOk := fun _ => false }

/-- Oracle where every bulk-copy channel fails. -/
def envCopyFail : Env := { envAllOk with copyOk := fun _ => false }

/-- Chunk context with watermark 2 and a captured role. -/
def ctx0 : Ctx :=
  { tableName := "t", origTableName := "orig", dataPoolId := 7,
    watermark := 2, origRole := some "origin" }

/-- Chunk context with watermark 10 and no captured role. -/
def ctx1 : Ctx :=
  { tableName := "t", origTableName := "orig", dataPoolId := 7,
    watermark := 10, origRole := none }

/-- Mid-chunk state: two rows buffered, one row already committed. -/
def st0 : St := { initSt "origin" [] with dataBuffer := ["a", "b"], committed := ["p"] }

/-- Claim C1, counterexample: on the successful-load-completion exit
path the claim fails.  In a data-only migration run (`envAllOk`,
role captured as `origin` and switched to `replica`) whose single batch
drains successfully and whose cursor ends, the session is left in
`replica` mode, `enableTriggers` is never invoked, and the connection is
never released — contradicting "the session's integrity mode after the
attempt completes equals its value before the chunk started, i.e.
enableTriggers is invoked exactly once with the captured value". -/
theorem claim_C1_counterexample :
    (loadData envAllOk true "t" "t" 2 7 [Except.ok "a", Except.ok "b"] false
      (initSt "origin" [])).sessionMode = "replica"
    ∧ ¬ (loadData envAllOk true "t" "t" 2 7 [Except.ok "a", Except.ok "b"] false
      (initSt "origin" [])).sessionMode = "origin"
    ∧ enabledCount (loadData envAllOk true "t" "t" 2 7 [Except.ok "a", Except.ok "b"] false
      (initSt "origin" [])).trace = 0
    ∧ releasedCount (loadData envAllOk true "t" "t" 2 7 [Except.ok "a", Except.ok "b"] false
      (initSt "origin" [])).trace = 0 := by decide

/-- Claim C1, amended: on the failure-cleanup exit paths (per-row
encoding failure, bulk-copy load failure, retrieval failure — all of
which funnel through `processDataError`), when a non-empty integrity
mode `r` was captured and the ledger `DELETE` and restoring `SET`
succeed, `enableTriggers` is invoked exactly once with `r`, strictly
before the connection release of that cleanup, and the session mode
afterwards equals `r`; on the successful-load exit path no restoration
occurs at all (see the counterexample). -/
theorem claim_C1_amended (env : Env) (tbl : String) (id : Nat) (r : String) (s : St)
    (hr : ¬ r = "") (hdel : env.deleteOk s.deleteAttempts = true)
    (hen : env.enableOk s.enableAttempts = true) :
    (processDataError env tbl id (some r) s).trace
      = s.trace ++ [Event.errorLogged, Event.rejectedLogged tbl,
          Event.ledgerDeleted id, Event.enabled r, Event.released, Event.msg tbl 0]
    ∧ (processDataError env tbl id (some r) s).sessionMode = r := by
  rw [processDataError_spec env tbl id r s hr hdel hen]
  exact ⟨rfl, rfl⟩

/-- Claim C1, witness for the amended theorem at a concrete input. -/
theorem claim_C1_witness :
    (processDataError envAllOk "t" 7 (some "origin") (initSt "origin" [])).trace
      = [Event.errorLogged, Event.rejectedLogged "t", Event.ledgerDeleted 7,
         Event.enabled "origin", Event.released, Event.msg "t" 0]
    ∧ (processDataError envAllOk "t" 7 (some "origin") (initSt "origin" [])).sessionMode
      = "origin" :=
  claim_C1_amended envAllOk "t" 7 "origin" (initSt "origin" []) (by decide) rfl rfl

/-- Claim C2, counterexample: a chunk attempt that completes all its
batches successfully (one batch of one row, then end-of-cursor) releases
the target connection zero times, not once — the success exit path never
reaches `deleteChunk`'s `finally`. -/
theorem claim_C2_counterexample :
    (loadData envAllOk false "t" "t" 1 7 [Except.ok "a"] false (initSt "origin" [])).trace
      = [Event.srcQuery, Event.batch 0 1 true, Event.mysqlDestroy]
    ∧ (loadData envAllOk false "t" "t" 1 7 [Except.ok "a"] false (initSt "origin" [])).committed
      = ["a"]
    ∧ releasedCount (loadData envAllOk false "t" "t" 1 7 [Except.ok "a"] false
        (initSt "origin" [])).trace = 0 := by decide

/-- Claim C2, amended: the target connection is released exactly once
per failure-cleanup invocation (`processDataError`, covering the
retrieval-error, encoding-error and load-error exit paths) and exactly
once on the recovery path; on an all-successful run (every batch
drains, cursor ends cleanly) the connection is never released. -/
theorem claim_C2_amended :
    (∀ (env : Env) (tbl : String) (id : Nat) (ro : Option String) (s : St),
      releasedCount (processDataError env tbl id ro s).trace = releasedCount s.trace + 1)
    ∧ (∀ (env : Env) (migF : Bool) (tbl otbl : String) (wm id : Nat)
        (rows : List (Except String String)) (retErr : Bool) (m : String)
        (c : List String), env.dataTransferredRes = true →
      releasedCount (loadData env migF tbl otbl wm id rows retErr (initSt m c)).trace = 1)
    ∧ (∀ (env : Env) (migF : Bool) (tbl otbl : String) (wm id : Nat)
        (csvs : List String) (m : String) (c : List String),
      env.dataTransferredRes = false →
      (∀ k, env.copyOk k = true) →
      releasedCount (loadData env migF tbl otbl wm id (csvs.map Except.ok) false
        (initSt m c)).trace = 0) := by
  refine ⟨?_, ?_, ?_⟩
  · intro env tbl id ro s
    exact (processDataError_effects env tbl id ro s).2.2.2.2.2.1
  · intro env migF tbl otbl wm id rows retErr m c hrec
    unfold loadData
    simp only [hrec, if_true]
    have h := (deleteChunk_effects env id none (initSt m c)).2.2.2.2.2.1
    simpa [initSt, releasedCount] using h
  · intro env migF tbl otbl wm id csvs m c hrec hcopy
    exact (loadData_allOk_quiet env migF tbl otbl wm id csvs m c hrec hcopy).2.2.2

/-- Claim C2, witness: all three parts of the amended theorem at
concrete inputs. -/
theorem claim_C2_witness :
    releasedCount (processDataError envAllOk "t" 7 none (initSt "origin" [])).trace
      = releasedCount (initSt "origin" []).trace + 1
    ∧ releasedCount (loadData envRecovery false "t" "t" 2 9 [] false
        (initSt "origin" [])).trace = 1
    ∧ releasedCount (loadData envAllOk false "t" "t" 2 7 (["a"].map Except.ok) false
        (initSt "origin" [])).trace = 0 :=
  ⟨claim_C2_amended.1 envAllOk "t" 7 none (initSt "origin" []),
   claim_C2_amended.2.1 envRecovery false "t" "t" 2 9 [] false "origin" [] rfl,
   claim_C2_amended.2.2 envAllOk false "t" "t" 2 7 ["a"] "origin" [] rfl (fun _ => rfl)⟩

/-- Claim C3, code bug: with watermark 2 and rows a, b, c (all
successfully drained), after the first drain the worker's buffer still
holds a, b — the reset `dataBuffer = []` in `getCopyStream`'s finish
handler only rebinds the handler's own parameter — so the second batch
re-streams a, b and the target receives them twice.  The resume signal
itself does fire (the final state is unpaused after two drains). -/
theorem claim_C3_bug :
    (loadData envAllOk false "t" "t" 2 7
      [Except.ok "a", Except.ok "b", Except.ok "c"] false (initSt "origin" [])).dataBuffer
      = ["a", "b", "c"]
    ∧ (loadData envAllOk false "t" "t" 2 7
      [Except.ok "a", Except.ok "b", Except.ok "c"] false (initSt "origin" [])).committed
      = ["a", "b", "a", "b", "c"]
    ∧ (loadData envAllOk false "t" "t" 2 7
      [Except.ok "a", Except.ok "b", Except.ok "c"] false (initSt "origin" [])).paused = false
    ∧ batchCount (loadData envAllOk false "t" "t" 2 7
      [Except.ok "a", Except.ok "b", Except.ok "c"] false (initSt "origin" [])).trace
      = 2 := by decide

/-- Claim C4: the success path performs no ledger deletion and no
outcome message — on any all-successful run (`dataTransferred` false,
every row encoded, every batch drained, cursor ends) there is no
`DELETE` attempt, no ledger deletion and no message to the master;
while the failure cleanup and the recovery path's `deleteChunk` each do
attempt exactly one ledger delete (and the cleanup one message). -/
theorem claim_C4 (env : Env) (migF : Bool) (tbl otbl : String) (wm id : Nat)
    (csvs : List String) (m : String) (c : List String)
    (hrec : env.dataTransferredRes = false) (hcopy : ∀ k, env.copyOk k = true) :
    ((loadData env migF tbl otbl wm id (csvs.map Except.ok) false
        (initSt m c)).deleteAttempts = 0
      ∧ ledgerDelCount (loadData env migF tbl otbl wm id (csvs.map Except.ok) false
        (initSt m c)).trace = 0
      ∧ msgCount (loadData env migF tbl otbl wm id (csvs.map Except.ok) false
        (initSt m c)).trace = 0)
    ∧ (∀ env2 tbl2 id2 ro2 s2,
        (processDataError env2 tbl2 id2 ro2 s2).deleteAttempts = s2.deleteAttempts + 1
        ∧ msgCount (processDataError env2 tbl2 id2 ro2 s2).trace = msgCount s2.trace + 1)
    ∧ (∀ env2 id2 ro2 s2,
        (deleteChunk env2 id2 ro2 s2).deleteAttempts = s2.deleteAttempts + 1) := by
  obtain ⟨q1, q2, q3, _⟩ := loadData_allOk_quiet env migF tbl otbl wm id csvs m c hrec hcopy
  refine ⟨⟨q1, q3, q2⟩, ?_, ?_⟩
  · intro env2 tbl2 id2 ro2 s2
    exact ⟨(processDataError_effects env2 tbl2 id2 ro2 s2).2.2.2.2.1,
           (processDataError_effects env2 tbl2 id2 ro2 s2).2.2.2.2.2.2.1⟩
  · intro env2 id2 ro2 s2
    exact (deleteChunk_effects env2 id2 ro2 s2).2.2.2.2.1

/-- Claim C4, witness at a concrete all-successful run. -/
theorem claim_C4_witness :
    ((loadData envAllOk true "t" "t" 2 7 (["a", "b"].map Except.ok) false
        (initSt "origin" [])).deleteAttempts = 0
      ∧ ledgerDelCount (loadData envAllOk true "t" "t" 2 7 (["a", "b"].map Except.ok) false
        (initSt "origin" [])).trace = 0
      ∧ msgCount (loadData envAllOk true "t" "t" 2 7 (["a", "b"].map Except.ok) false
        (initSt "origin" [])).trace = 0)
    ∧ (∀ env2 tbl2 id2 ro2 s2,
        (processDataError env2 tbl2 id2 ro2 s2).deleteAttempts = s2.deleteAttempts + 1
        ∧ msgCount (processDataError env2 tbl2 id2 ro2 s2).trace = msgCount s2.trace + 1)
    ∧ (∀ env2 id2 ro2 s2,
        (deleteChunk env2 id2 ro2 s2).deleteAttempts = s2.deleteAttempts + 1) :=
  claim_C4 envAllOk true "t" "t" 2 7 ["a", "b"] "origin" [] rfl (fun _ => rfl)

end DataLoader

namespace DataLoader

/-- Claim C5: a row whose CSV encoding throws aborts the chunk instead
of being skipped — the row is not appended to the buffer, nothing new is
committed, and the failure cleanup runs in full: error log plus a
rejected-data entry scoped to the original table name, ledger deletion,
restoration of the captured integrity mode (when one was captured, the
`DELETE` succeeded and the restoring `SET` succeeded), connection
release, and a zero-row Transfer Outcome for that table. -/
theorem claim_C5 (env : Env) (tbl otbl : String) (id wm : Nat) (r e : String) (s : St)
    (hr : ¬ r = "") (hdel : env.deleteOk s.deleteAttempts = true)
    (hen : env.enableOk s.enableAttempts = true) :
    (onResult env ⟨tbl, otbl, id, wm, some r⟩ (Except.error e) s).dataBuffer = s.dataBuffer
    ∧ (onResult env ⟨tbl, otbl, id, wm, some r⟩ (Except.error e) s).committed = s.committed
    ∧ (onResult env ⟨tbl, otbl, id, wm, some r⟩ (Except.error e) s).trace
        = s.trace ++ [Event.errorLogged, Event.rejectedLogged otbl,
            Event.ledgerDeleted id, Event.enabled r, Event.released, Event.msg otbl 0]
    ∧ (onResult env ⟨tbl, otbl, id, wm, some r⟩ (Except.error e) s).sessionMode = r := by
  have h := processDataError_spec env otbl id r s hr hdel hen
  simp only [onResult]
  rw [h]
  exact ⟨rfl, rfl, rfl, rfl⟩

/-- Claim C5, witness: one malformed row in a fresh chunk state. -/
theorem claim_C5_witness :
    (onResult envAllOk ⟨"t", "orig", 7, 2, some "origin"⟩ (Except.error "bad")
        (initSt "origin" [])).dataBuffer = []
    ∧ (onResult envAllOk ⟨"t", "orig", 7, 2, some "origin"⟩ (Except.error "bad")
        (initSt "origin" [])).committed = []
    ∧ (onResult envAllOk ⟨"t", "orig", 7, 2, some "origin"⟩ (Except.error "bad")
        (initSt "origin" [])).trace
        = [Event.errorLogged, Event.rejectedLogged "orig", Event.ledgerDeleted 7,
           Event.enabled "origin", Event.released, Event.msg "orig" 0]
    ∧ (onResult envAllOk ⟨"t", "orig", 7, 2, some "origin"⟩ (Except.error "bad")
        (initSt "origin" [])).sessionMode = "origin" :=
  claim_C5 envAllOk "t" "orig" 7 2 "origin" "bad" (initSt "origin" [])
    (by decide) rfl rfl

/-- Claim C6: when the bulk-copy channel of the current batch fails,
the rows committed by earlier batches stay committed (the target table
is unchanged by the failed channel), the cursor stays paused so no
further rows are delivered and no further batch is ever attempted, and
the failure cleanup runs: one more ledger-delete attempt, one more
connection release, one more message, the message being a zero-row
outcome for the chunk's table. -/
theorem claim_C6 (env : Env) (ctx : Ctx) (rows : List (Except String String)) (s : St)
    (hfail : env.copyOk s.batchAttempts = false) :
    (getCopyStream env ctx s).committed = s.committed
    ∧ (getCopyStream env ctx s).paused = true
    ∧ runRows env ctx rows (getCopyStream env ctx s) = getCopyStream env ctx s
    ∧ (getCopyStream env ctx s).batchAttempts = s.batchAttempts + 1
    ∧ (getCopyStream env ctx s).deleteAttempts = s.deleteAttempts + 1
    ∧ releasedCount (getCopyStream env ctx s).trace = releasedCount s.trace + 1
    ∧ msgCount (getCopyStream env ctx s).trace = msgCount s.trace + 1
    ∧ Event.msg ctx.tableName 0 ∈ (getCopyStream env ctx s).trace := by
  unfold getCopyStream
  simp only [hfail, Bool.false_eq_true, if_false]
  refine ⟨(processDataError_effects _ _ _ _ _).1,
    (processDataError_effects _ _ _ _ _).2.1, ?_,
    (processDataError_effects _ _ _ _ _).2.2.2.1,
    (processDataError_effects _ _ _ _ _).2.2.2.2.1, ?_, ?_,
    (processDataError_effects _ _ _ _ _).2.2.2.2.2.2.2⟩
  · exact runRows_paused env ctx rows _ ((processDataError_effects _ _ _ _ _).2.1)
  · rw [(processDataError_effects _ _ _ _ _).2.2.2.2.2.1]
    simp [releasedCount_append, releasedCount, Event.isReleased]
  · rw [(processDataError_effects _ _ _ _ _).2.2.2.2.2.2.1]
    simp [msgCount_append, msgCount, Event.isMsg]

/-- Claim C6, witness: batch 0 of a mid-chunk state fails. -/
theorem claim_C6_witness :
    (getCopyStream envCopyFail ctx0 st0).committed = st0.committed
    ∧ (getCopyStream envCopyFail ctx0 st0).paused = true
    ∧ runRows envCopyFail ctx0 [Except.ok "z"] (getCopyStream envCopyFail ctx0 st0)
        = getCopyStream envCopyFail ctx0 st0
    ∧ (getCopyStream envCopyFail ctx0 st0).batchAttempts = st0.batchAttempts + 1
    ∧ (getCopyStream envCopyFail ctx0 st0).deleteAttempts = st0.deleteAttempts + 1
    ∧ releasedCount (getCopyStream envCopyFail ctx0 st0).trace = releasedCount st0.trace + 1
    ∧ msgCount (getCopyStream envCopyFail ctx0 st0).trace = msgCount st0.trace + 1
    ∧ Event.msg ctx0.tableName 0 ∈ (getCopyStream envCopyFail ctx0 st0).trace :=
  claim_C6 envCopyFail ctx0 [Except.ok "z"] st0 rfl

/-- Claim C7, code bug: with watermark 2 and four rows that all encode
and drain successfully, the third "batch ready" signal fires with a
buffer of four records — watermark + 2 — because the drains never clear
the worker's buffer; the claimed bound (never more than watermark + 1)
is violated. -/
theorem claim_C7_bug :
    Event.batch 2 4 true ∈ (loadData envAllOk false "t" "t" 2 7
      [Except.ok "a", Except.ok "b", Except.ok "c", Except.ok "d"] false
      (initSt "origin" [])).trace
    ∧ Event.batch 1 3 true ∈ (loadData envAllOk false "t" "t" 2 7
      [Except.ok "a", Except.ok "b", Except.ok "c", Except.ok "d"] false
      (initSt "origin" [])).trace := by decide

/-- Claim C8: when `dataTransferred` reports the chunk already applied,
the worker performs no extraction and no loading — no source query, no
batch, nothing appended to the target — and proceeds straight to ledger
cleanup: the ledger entry is deleted (given the `DELETE` succeeds) and
the connection released exactly once.  Since this holds for every
initial target contents `c`, repeating the recovery path never
re-inserts rows. -/
theorem claim_C8 (env : Env) (migF : Bool) (tbl otbl : String) (wm id : Nat)
    (rows : List (Except String String)) (retErr : Bool) (m : String) (c : List String)
    (hrec : env.dataTransferredRes = true) (hdel : env.deleteOk 0 = true) :
    (loadData env migF tbl otbl wm id rows retErr (initSt m c)).committed = c
    ∧ (loadData env migF tbl otbl wm id rows retErr (initSt m c)).trace
        = [Event.ledgerDeleted id, Event.released]
    ∧ srcQueryCount (loadData env migF tbl otbl wm id rows retErr (initSt m c)).trace = 0
    ∧ batchCount (loadData env migF tbl otbl wm id rows retErr (initSt m c)).trace = 0
    ∧ releasedCount (loadData env migF tbl otbl wm id rows retErr (initSt m c)).trace = 1
    ∧ ledgerDelCount (loadData env migF tbl otbl wm id rows retErr (initSt m c)).trace = 1 := by
  have h : loadData env migF tbl otbl wm id rows retErr (initSt m c)
      = { initSt m c with deleteAttempts := 1,
                          trace := [Event.ledgerDeleted id, Event.released] } := by
    unfold loadData deleteChunk
    simp [hrec, hdel, initSt]
  rw [h]
  exact ⟨rfl, rfl, rfl, rfl, rfl, rfl⟩

/-- Claim C8, witness: recovery of chunk 9 over a target already
holding one row. -/
theorem claim_C8_witness :
    (loadData envRecovery false "t" "t" 2 9 [Except.ok "a"] false
        (initSt "origin" ["p"])).committed = ["p"]
    ∧ (loadData envRecovery false "t" "t" 2 9 [Except.ok "a"] false
        (initSt "origin" ["p"])).trace = [Event.ledgerDeleted 9, Event.released]
    ∧ srcQueryCount (loadData envRecovery false "t" "t" 2 9 [Except.ok "a"] false
        (initSt "origin" ["p"])).trace = 0
    ∧ batchCount (loadData envRecovery false "t" "t" 2 9 [Except.ok "a"] false
        (initSt "origin" ["p"])).trace = 0
    ∧ releasedCount (loadData envRecovery false "t" "t" 2 9 [Except.ok "a"] false
        (initSt "origin" ["p"])).trace = 1
    ∧ ledgerDelCount (loadData envRecovery false "t" "t" 2 9 [Except.ok "a"] false
        (initSt "origin" ["p"])).trace = 1 :=
  claim_C8 envRecovery false "t" "t" 2 9 [Except.ok "a"] false "origin" ["p"] rfl rfl

/-- Claim C9, counterexample: when the capture (`SHOW`) succeeds but the
switch (`SET … = replica`) throws, `disableTriggers` returns the
captured mode — here `local` — not the claimed default `origin`. -/
theorem claim_C9_counterexample :
    envSetFail.showOk = true ∧ envSetFail.setReplicaOk = false
    ∧ ¬ (disableTriggers envSetFail (initSt "local" [])).1 = "origin" := by decide

/-- Claim C9, amended: `disableTriggers` never propagates an error.  If
the capturing `SHOW` throws, it logs and returns the default `origin`;
if the capture succeeds and the switching `SET` throws, it logs and
returns the captured mode (which need not be `origin`); and
`enableTriggers` applies the same query-and-log-on-error discipline —
a failed restoring `SET` is logged and the session mode left as is. -/
theorem claim_C9_amended :
    (∀ (env : Env) (s : St), env.showOk = false →
      disableTriggers env s = ("origin", { s with trace := s.trace ++ [Event.errorLogged] }))
    ∧ (∀ (env : Env) (s : St), env.showOk = true → env.setReplicaOk = false →
      disableTriggers env s
        = (s.sessionMode, { s with trace := s.trace ++ [Event.errorLogged] }))
    ∧ (∀ (env : Env) (r : String) (s : St), env.enableOk s.enableAttempts = false →
      (enableTriggers env r s).sessionMode = s.sessionMode
      ∧ (enableTriggers env r s).trace = s.trace ++ [Event.enabled r, Event.errorLogged]) := by
  refine ⟨?_, ?_, ?_⟩
  · intro env s h
    unfold disableTriggers
    simp [h]
  · intro env s h1 h2
    unfold disableTriggers
    simp [h1, h2]
  · intro env r s h
    unfold enableTriggers
    simp [h]

/-- Claim C9, witness: the three fail-open branches at concrete
inputs. -/
theorem claim_C9_witness :
    disableTriggers envShowFail (initSt "origin" [])
      = ("origin", { initSt "origin" [] with trace := [Event.errorLogged] })
    ∧ disableTriggers envSetFail (initSt "replica" [])
      = ("replica", { initSt "replica" [] with trace := [Event.errorLogged] })
    ∧ (enableTriggers envEnableFail "origin" (initSt "replica" [])).sessionMode = "replica"
    ∧ (enableTriggers envEnableFail "origin" (initSt "replica" [])).trace
        = [Event.enabled "origin", Event.errorLogged] :=
  ⟨claim_C9_amended.1 envShowFail (initSt "origin" []) rfl,
   claim_C9_amended.2.1 envSetFail (initSt "replica" []) rfl rfl,
   (claim_C9_amended.2.2 envEnableFail "origin" (initSt "replica" []) rfl).1,
   (claim_C9_amended.2.2 envEnableFail "origin" (initSt "replica" []) rfl).2⟩

/-- Claim C10: an encoding failure does not stop or pause the cursor —
after `processDataError` runs for a row whose conversion threw, the
remaining rows are still delivered (the loop continues on the
unchanged, unpaused buffer state) — and therefore the failure cleanup
can run more than once in a single chunk: in the concrete run with two
malformed rows around one good row, two releases and two zero-row
messages occur and the good row is still buffered. -/
theorem claim_C10 :
    (∀ (env : Env) (ctx : Ctx) (e : String) (rows : List (Except String String)) (s : St),
      s.paused = false →
      runRows env ctx (Except.error e :: rows) s
        = runRows env ctx rows (onResult env ctx (Except.error e) s)
      ∧ (onResult env ctx (Except.error e) s).paused = false
      ∧ (onResult env ctx (Except.error e) s).dataBuffer = s.dataBuffer)
    ∧ releasedCount (loadData envAllOk false "t" "orig" 10 7
        [Except.error "x", Except.ok "a", Except.error "y"] false
        (initSt "origin" [])).trace = 2
    ∧ msgCount (loadData envAllOk false "t" "orig" 10 7
        [Except.error "x", Except.ok "a", Except.error "y"] false
        (initSt "origin" [])).trace = 2
    ∧ (loadData envAllOk false "t" "orig" 10 7
        [Except.error "x", Except.ok "a", Except.error "y"] false
        (initSt "origin" [])).dataBuffer = ["a"] := by
  refine ⟨?_, by decide, by decide, by decide⟩
  intro env ctx e rows s hp
  refine ⟨by simp [runRows, hp], ?_, ?_⟩
  · exact ((processDataError_effects env ctx.origTableName ctx.dataPoolId
      ctx.origRole s).2.1).trans hp
  · exact (processDataError_effects env ctx.origTableName ctx.dataPoolId
      ctx.origRole s).2.2.1

/-- Claim C10, witness: the continuation part at a concrete input. -/
theorem claim_C10_witness :
    (runRows envAllOk ctx1 [Except.error "x", Except.ok "a"] (initSt "origin" [])
      = runRows envAllOk ctx1 [Except.ok "a"]
          (onResult envAllOk ctx1 (Except.error "x") (initSt "origin" []))
      ∧ (onResult envAllOk ctx1 (Except.error "x") (initSt "origin" [])).paused = false
      ∧ (onResult envAllOk ctx1 (Except.error "x") (initSt "origin" [])).dataBuffer = [])
    ∧ releasedCount (loadData envAllOk false "t" "orig" 10 7
        [Except.error "x", Except.ok "a", Except.error "y"] false
        (initSt "origin" [])).trace = 2 :=
  ⟨claim_C10.1 envAllOk ctx1 "x" [Except.ok "a"] (initSt "origin" []) rfl,
   claim_C10.2.1⟩

end DataLoader
